import Mathlib

/-!
Verification of `ms-graph-email/scripts/email-check.py`, a single-shot CLI
that reads a credential bundle from the macOS Keychain, exchanges it for a
bearer token, lists unread messages of one mailbox via the Microsoft Graph
API and prints a summary of each.

The script is embedded shallowly: JSON values are an inductive type,
`subprocess.run` of the keychain lookup and the two HTTP exchanges are
inputs handed to the embedded functions, and every function returns an
`Eff` record collecting the lines it printed, the keychain lookups it made,
the HTTP requests it issued, and either a value, a `sys.exit` code or an
unhandled Python exception.
-/

/-- JSON values, the shape of `json.loads` / `response.json()` results.
Objects are association lists in insertion order, as Python dicts are. -/
inductive Json where
  | null : Json
  | bool : Bool → Json
  | num : Int → Json
  | str : String → Json
  | arr : List Json → Json
  | obj : List (String × Json) → Json
deriving Repr

/-- Unhandled Python exceptions the script can die with.  Exceptions that
differ in Python but are all unhandled crashes here (`TypeError`,
`AttributeError` from indexing or calling `.get` on a non-dict) are
collapsed into `typeError`. -/
inductive PyExc where
  | keyError : String → PyExc
  | jsonDecodeError : PyExc
  | typeError : PyExc
deriving Repr, DecidableEq

/-- How a run of (part of) the script stops early: a `sys.exit(code)` call,
or an unhandled exception escaping to the interpreter. -/
inductive Halt where
  | exit : Nat → Halt
  | exc : PyExc → Halt
deriving Repr, DecidableEq

/-- The exit status of the whole process given the result of `main`:
0 when `main` returns, `n` after `sys.exit(n)`, and 1 when the interpreter
dies on an unhandled exception (traceback). -/
def processExit : Except Halt Unit → Nat
  | Except.ok _ => 0
  | Except.error (Halt.exit n) => n
  | Except.error (Halt.exc _) => 1

/-- One HTTP request as issued by `requests.post` / `requests.get`:
the `params` field holds the query parameters of a GET and the form body
of a POST, stringified. -/
structure HttpRequest where
  method : String
  url : String
  headers : List (String × String)
  params : List (String × String)
deriving Repr, DecidableEq

/-- One HTTP response as the `requests` library presents it: the status
code, the raw body text, and the parse of the body (`response.json()`),
`none` when the body is not valid JSON (so that call raises). -/
structure HttpResponse where
  status_code : Nat
  text : String
  jsonBody : Option Json
deriving Repr

/-- The result of the `subprocess.run` keychain lookup.  Its stdout is
represented by its parse: `stdoutJson = some j` when `json.loads` of the
stripped stdout yields `j`, `none` when stdout is not valid JSON. -/
structure SecretResult where
  returncode : Int
  stdoutJson : Option Json
deriving Repr

/-- A computation of the script: the lines it printed (one entry per
`print` call, without the trailing newline), the keychain service names it
looked up, the HTTP requests it issued, and its result. -/
structure Eff (α : Type) where
  output : List String
  lookups : List String
  requests : List HttpRequest
  result : Except Halt α
deriving Repr

def Eff.pure {α : Type} (a : α) : Eff α := ⟨[], [], [], Except.ok a⟩

def Eff.bind {α β : Type} (x : Eff α) (f : α → Eff β) : Eff β :=
  match x.result with
  | Except.error h => ⟨x.output, x.lookups, x.requests, Except.error h⟩
  | Except.ok a =>
    let y := f a
    ⟨x.output ++ y.output, x.lookups ++ y.lookups, x.requests ++ y.requests, y.result⟩

instance : Monad Eff where
  pure := Eff.pure
  bind := Eff.bind

/-- `print(s)`. -/
def Eff.pr (s : String) : Eff Unit := ⟨[s], [], [], Except.ok ()⟩

/-- Several `print` calls in a row. -/
def Eff.prAll (ls : List String) : Eff Unit := ⟨ls, [], [], Except.ok ()⟩

/-- `sys.exit(n)`. -/
def Eff.exitWith {α : Type} (n : Nat) : Eff α := ⟨[], [], [], Except.error (Halt.exit n)⟩

/-- An exception propagating out unhandled. -/
def Eff.raise {α : Type} (e : PyExc) : Eff α := ⟨[], [], [], Except.error (Halt.exc e)⟩

def Eff.liftExcept {α : Type} : Except PyExc α → Eff α
  | Except.ok a => Eff.pure a
  | Except.error e => Eff.raise e

/-- Record the keychain lookup done by `subprocess.run(["security", ...])`. -/
def Eff.recordLookup (service : String) : Eff Unit := ⟨[], [service], [], Except.ok ()⟩

/-- Record an HTTP request at the moment `requests.post`/`requests.get` fires. -/
def Eff.recordRequest (r : HttpRequest) : Eff Unit := ⟨[], [], [r], Except.ok ()⟩

/-- Key lookup in an association list, first match, as in a Python dict
(whose keys are unique). -/
def jsonLookup : List (String × Json) → String → Option Json
  | [], _ => none
  | (k, v) :: rest, key => if k = key then some v else jsonLookup rest key

/-- `d.get(k)` seen as a partial map: `none` when `j` is not an object or
the key is absent. -/
def Json.get : Json → String → Option Json
  | Json.obj kvs, k => jsonLookup kvs k
  | _, _ => none

/-- `d[k]`: `KeyError` when the key is absent, a crash (collapsed into
`typeError`) when `d` is not a dict. -/
def pyIndex : Json → String → Except PyExc Json
  | Json.obj kvs, k =>
    match jsonLookup kvs k with
    | some v => Except.ok v
    | none => Except.error (PyExc.keyError k)
  | _, _ => Except.error PyExc.typeError

/-- `d.get(k, default)`: a crash when `d` is not a dict (Python:
`AttributeError`, collapsed into `typeError`). -/
def pyGet : Json → String → Json → Except PyExc Json
  | Json.obj kvs, k, d => Except.ok ((jsonLookup kvs k).getD d)
  | _, _, _ => Except.error PyExc.typeError

mutual

/-- `str(v)` as used by f-string interpolation.  Scalars match Python
exactly; the rendering of nested lists/dicts (which Python shows with
`repr` quoting) is approximated, no message field printed by the script is
one in any property below. -/
def Json.pyStr : Json → String
  | Json.null => "None"
  | Json.bool true => "True"
  | Json.bool false => "False"
  | Json.num n => toString n
  | Json.str s => s
  | Json.arr xs => "[" ++ Json.pyStrList xs ++ "]"
  | Json.obj kvs => "\x7b" ++ Json.pyStrPairs kvs ++ "\x7d"

def Json.pyStrList : List Json → String
  | [] => ""
  | [x] => Json.pyStr x
  | x :: y :: rest => Json.pyStr x ++ ", " ++ Json.pyStrList (y :: rest)

def Json.pyStrPairs : List (String × Json) → String
  | [] => ""
  | [(k, v)] => k ++ ": " ++ Json.pyStr v
  | (k, v) :: p :: rest => k ++ ": " ++ Json.pyStr v ++ ", " ++ Json.pyStrPairs (p :: rest)

end

/-- `if not v:` — Python falsiness of a JSON value. -/
def Json.pyFalsy : Json → Bool
  | Json.null => true
  | Json.bool b => !b
  | Json.num n => n = 0
  | Json.str s => s = ""
  | Json.arr xs => xs.isEmpty
  | Json.obj kvs => kvs.isEmpty

/-- `get_credentials()`: run the keychain lookup; on a non-zero return code
print the four-line diagnostic and `sys.exit(1)`; otherwise
`json.loads(result.stdout.strip())`, whose failure on non-JSON output is an
unhandled `json.JSONDecodeError`. -/
def get_credentials (secret : SecretResult) : Eff Json := do
  Eff.recordLookup "openclaw-microsoft365"
  if secret.returncode ≠ 0 then do
    Eff.pr "❌ No credentials found in keychain"
    Eff.pr "   Store credentials with:"
    Eff.pr "   security add-generic-password -s \"openclaw-microsoft365\" -a \"graph\" \\"
    Eff.pr "     -w \x27\x7b\"tenant_id\":\"xxx\",\"client_id\":\"xxx\",\"client_secret\":\"xxx\"\x7d\x27 -U"
    Eff.exitWith 1
  else
    match secret.stdoutJson with
    | some j => Eff.pure j
    | none => Eff.raise PyExc.jsonDecodeError

/-- `get_token(creds)`: POST the client-credentials form to the tenant's
token endpoint (the URL evaluates `creds["tenant_id"]`, the form dict
`creds["client_id"]` and `creds["client_secret"]`, each a potential
`KeyError`); on a non-200 response print `❌ Auth failed:` with the body and
`sys.exit(1)`; on 200 return `response.json()["access_token"]`. -/
def get_token (creds : Json) (response : HttpResponse) : Eff Json := do
  let tenant ← Eff.liftExcept (pyIndex creds "tenant_id")
  let clientId ← Eff.liftExcept (pyIndex creds "client_id")
  let clientSecret ← Eff.liftExcept (pyIndex creds "client_secret")
  Eff.recordRequest
    { method := "POST"
      url := "https://login.microsoftonline.com/" ++ tenant.pyStr ++ "/oauth2/v2.0/token"
      headers := []
      params := [("grant_type", "client_credentials"),
                 ("client_id", clientId.pyStr),
                 ("client_secret", clientSecret.pyStr),
                 ("scope", "https://graph.microsoft.com/.default")] }
  if response.status_code ≠ 200 then do
    Eff.pr ("❌ Auth failed: " ++ response.text)
    Eff.exitWith 1
  else
    match response.jsonBody with
    | none => Eff.raise PyExc.jsonDecodeError
    | some j => Eff.liftExcept (pyIndex j "access_token")

/-- The query-parameter dict built by `check_emails`, in insertion order:
`$top`, `$orderby`, `$select`, then `$filter` added only in unread-only
mode. -/
def check_emails_params (unread_only : Bool) (limit : Nat) : List (String × String) :=
  [("$top", toString limit),
   ("$orderby", "receivedDateTime desc"),
   ("$select", "subject,from,receivedDateTime,isRead,bodyPreview")] ++
  (if unread_only then [("$filter", "isRead eq false")] else [])

/-- `check_emails(mailbox, token, unread_only=True, limit=10)`: GET the
user's messages with a bearer header and the parameter dict; on non-200
print `❌ Failed to get emails:` with the body and `sys.exit(1)`; on 200
return `response.json().get("value", [])`. -/
def check_emails (mailbox : String) (token : Json)
    (unread_only : Bool := true) (limit : Nat := 10)
    (response : HttpResponse) : Eff Json := do
  Eff.recordRequest
    { method := "GET"
      url := "https://graph.microsoft.com/v1.0/users/" ++ mailbox ++ "/messages"
      headers := [("Authorization", "Bearer " ++ token.pyStr)]
      params := check_emails_params unread_only limit }
  if response.status_code ≠ 200 then do
    Eff.pr ("❌ Failed to get emails: " ++ response.text)
    Eff.exitWith 1
  else
    match response.jsonBody with
    | none => Eff.raise PyExc.jsonDecodeError
    | some j => Eff.liftExcept (pyGet j "value" (Json.arr []))

/-- `.replace("T", " ")` on a string: the pattern being the single
character `T`, Python's substring replacement is exactly this character
map. -/
def replaceTbySpace (s : String) : String :=
  String.mk (s.data.map (fun c => if c = 'T' then ' ' else c))

/-- `"-" * 50`, the rule printed after each message. -/
def ruleLine : String := String.mk (List.replicate 50 '-')

/-- The body of `main`'s `for email in emails` loop (lines 96–107): the
five lines printed for one message, or the unhandled exception it raises.
Python evaluates the default argument `sender["address"]` of
`sender.get("name", sender["address"])` before the `.get` call, so a
missing `address` key raises even when `name` is present.  A
`receivedDateTime` or `bodyPreview` value that is neither a string nor a
list cannot be sliced (`TypeError`); a list slices fine but
`receivedDateTime`'s `.replace` then crashes (`AttributeError`), both
collapsed into `typeError`. -/
def format_email (email : Json) : Except PyExc (List String) := do
  let fromVal ← pyIndex email "from"
  let sender ← pyIndex fromVal "emailAddress"
  let addr ← pyIndex sender "address"
  let name ← pyGet sender "name" addr
  let subject ← pyGet email "subject" (Json.str "(no subject)")
  let rdt ← pyIndex email "receivedDateTime"
  let received ←
    match rdt with
    | Json.str s => Except.ok (replaceTbySpace (s.take 16))
    | _ => Except.error PyExc.typeError
  let previewVal ← pyGet email "bodyPreview" (Json.str "")
  let preview ←
    match previewVal with
    | Json.str s => Except.ok (Json.str (s.take 80))
    | Json.arr xs => Except.ok (Json.arr (xs.take 80))
    | _ => Except.error PyExc.typeError
  Except.ok ["From: " ++ name.pyStr,
             "Subject: " ++ subject.pyStr,
             "Received: " ++ received,
             "Preview: " ++ preview.pyStr ++ "...",
             ruleLine]

/-- The `for email in emails` loop: print the five lines of each message in
order, stopping at the first unhandled exception. -/
def printEmails : List Json → Eff Unit
  | [] => Eff.pure ()
  | e :: rest =>
    Eff.bind (Eff.liftExcept (format_email e)) (fun lines =>
      Eff.bind (Eff.prAll lines) (fun _ => printEmails rest))

namespace EmailCheck

/-- `main()`.  `sys.argv[1:]` is `args`; the keychain result and the two
HTTP responses are the run's external inputs.  `mailbox` is
`sys.argv[1] if len(sys.argv) > 1 else None`, and `if not mailbox:` is true
exactly when the argument is absent or the empty string.  The count line
`print(f"\n📬 {len(emails)} unread email(s):\n")` is one print whose text
embeds the two newlines.  Iterating a non-list `emails` value (possible
only if the API body's `value` key held a non-array) is collapsed into
`typeError`. -/
def main (args : List String) (secret : SecretResult)
    (tokenResp listResp : HttpResponse) : Eff Unit := do
  let mailbox := (args.head?).getD ""
  if mailbox = "" then do
    Eff.pr "Usage: python3 email-check.py user@domain.com"
    Eff.pr "Set your mailbox as the first argument"
    Eff.exitWith 1
  else do
    Eff.pr ("📧 Checking " ++ mailbox ++ "...")
    let creds ← get_credentials secret
    let token ← get_token creds tokenResp
    let emails ← check_emails mailbox token true 10 listResp
    if emails.pyFalsy then
      Eff.pr "✅ No unread emails"
    else
      match emails with
      | Json.arr l => do
        Eff.pr ("\n📬 " ++ toString l.length ++ " unread email(s):\n")
        printEmails l
      | _ => Eff.raise PyExc.typeError

end EmailCheck

/-- A well-formed Credential Bundle: the JSON object the keychain is
expected to hold, with its three required string fields. -/
def credsObj (a b c : String) : Json :=
  Json.obj [("tenant_id", Json.str a), ("client_id", Json.str b),
            ("client_secret", Json.str c)]

/-- The token request `get_token` issues for a well-formed bundle. -/
def tokenRequest (a b c : String) : HttpRequest :=
  { method := "POST"
    url := "https://login.microsoftonline.com/" ++ a ++ "/oauth2/v2.0/token"
    headers := []
    params := [("grant_type", "client_credentials"), ("client_id", b),
               ("client_secret", c), ("scope", "https://graph.microsoft.com/.default")] }

/-- A message object of the shape the Graph API returns, with optional
display name and optional subject. -/
def mkMsg (nameOpt : Option String) (addr : String) (subjOpt : Option String)
    (rdt : String) (prev : String) : Json :=
  Json.obj
    ((match subjOpt with
      | some s => [("subject", Json.str s)]
      | none => []) ++
     [("from", Json.obj [("emailAddress", Json.obj
        ((match nameOpt with
          | some n => [("name", Json.str n)]
          | none => []) ++
         [("address", Json.str addr)]))]),
      ("receivedDateTime", Json.str rdt),
      ("isRead", Json.bool false),
      ("bodyPreview", Json.str prev)])

/-! Reduction lemmas for the effect structure. -/

theorem Eff.bind_eq {α β : Type} (x : Eff α) (f : α → Eff β) :
    x >>= f = Eff.bind x f := rfl

theorem Eff.pure_eq {α : Type} (a : α) : (pure a : Eff α) = Eff.pure a := rfl

theorem Eff.liftExcept_output {α : Type} (x : Except PyExc α) :
    (Eff.liftExcept x).output = [] := by cases x <;> rfl

theorem Eff.liftExcept_lookups {α : Type} (x : Except PyExc α) :
    (Eff.liftExcept x).lookups = [] := by cases x <;> rfl

theorem Eff.liftExcept_requests {α : Type} (x : Except PyExc α) :
    (Eff.liftExcept x).requests = [] := by cases x <;> rfl

set_option maxRecDepth 100000

/-- Claim C1: for a well-formed Credential Bundle, when the token endpoint
responds with HTTP 200 and a JSON body whose `access_token` field holds the
string `t`, `get_token` returns exactly `t`. -/
theorem C1_get_token_returns_access_token
    (a b c txt t : String) (j : Json)
    (htok : pyIndex j "access_token" = Except.ok (Json.str t)) :
    (get_token (credsObj a b c) ⟨200, txt, some j⟩).result
      = Except.ok (Json.str t) := by
  have h1 : pyIndex (credsObj a b c) "tenant_id" = Except.ok (Json.str a) := rfl
  have h2 : pyIndex (credsObj a b c) "client_id" = Except.ok (Json.str b) := rfl
  have h3 : pyIndex (credsObj a b c) "client_secret" = Except.ok (Json.str c) := rfl
  simp [get_token, Eff.bind_eq, Eff.bind, Eff.pure_eq, Eff.pure, Eff.liftExcept,
        Eff.recordRequest, Eff.pr, Eff.exitWith, h1, h2, h3, htok]

/-- Claim C1, witness: the spec's mock — HTTP 200 with body
`{"access_token": "T"}` — yields exactly `"T"`. -/
theorem C1_get_token_returns_access_token_witness :
    (get_token (credsObj "tid" "cid" "sec")
        ⟨200, "", some (Json.obj [("access_token", Json.str "T")])⟩).result
      = Except.ok (Json.str "T") :=
  C1_get_token_returns_access_token "tid" "cid" "sec" "" "T"
    (Json.obj [("access_token", Json.str "T")]) rfl

/-- Claim C2: in unread-only mode the single GET issued by `check_emails`
carries exactly the query parameters `$top` (the page-size limit),
`$orderby receivedDateTime desc`, the five-field `$select`, and
`$filter isRead eq false`, whatever the endpoint answers. -/
theorem C2_unread_query_parameters
    (mailbox : String) (token : Json) (limit : Nat) (resp : HttpResponse) :
    (check_emails mailbox token true limit resp).requests =
      [{ method := "GET"
         url := "https://graph.microsoft.com/v1.0/users/" ++ mailbox ++ "/messages"
         headers := [("Authorization", "Bearer " ++ token.pyStr)]
         params := [("$top", toString limit),
                    ("$orderby", "receivedDateTime desc"),
                    ("$select", "subject,from,receivedDateTime,isRead,bodyPreview"),
                    ("$filter", "isRead eq false")] }] := by
  rcases resp with ⟨s, txt, jb⟩
  by_cases h : s = 200
  · subst h
    cases jb <;>
      simp [check_emails, check_emails_params, Eff.bind_eq, Eff.bind,
            Eff.recordRequest, Eff.raise, Eff.pr, Eff.exitWith, Eff.liftExcept_requests]
  · simp [check_emails, check_emails_params, Eff.bind_eq, Eff.bind,
          Eff.recordRequest, Eff.raise, Eff.pr, Eff.exitWith, h]


/-- Claim C3: each message summary is printed as the sender display name
(falling back to the address when no display name is present), the subject
(falling back to `(no subject)` when absent), the received timestamp cut to
16 characters with the `T` separator replaced by a space (so
`2024-01-01T12:34:56Z` becomes `2024-01-01 12:34`), and the first 80
characters of the body preview followed by `...`, each entry closed by the
50-dash rule line. -/
theorem C3_presentation_format
    (nameOpt : Option String) (addr : String) (subjOpt : Option String)
    (rdt prev : String) :
    format_email (mkMsg nameOpt addr subjOpt rdt prev) =
      Except.ok ["From: " ++ nameOpt.getD addr,
                 "Subject: " ++ subjOpt.getD "(no subject)",
                 "Received: " ++ replaceTbySpace (rdt.take 16),
                 "Preview: " ++ prev.take 80 ++ "...",
                 ruleLine]
    ∧ format_email (mkMsg (some "Bob") "bob@x.com" (some "Hi")
          "2024-01-01T12:34:56Z" "Hello world") =
        Except.ok ["From: Bob", "Subject: Hi", "Received: 2024-01-01 12:34",
                   "Preview: Hello world...", ruleLine]
    ∧ ruleLine = "--------------------------------------------------" := by
  refine ⟨?_, rfl, rfl⟩
  cases nameOpt <;> cases subjOpt <;> rfl

/-- Claim C4, counterexample: on a run whose listing endpoint returns
`{"value": []}` the output is not exactly the single confirmation line —
the `📧 Checking …` header is printed first. -/
theorem C4_single_line_output_counterexample :
    (EmailCheck.main ["m@x.com"] ⟨0, some (credsObj "tid" "cid" "sec")⟩
        ⟨200, "", some (Json.obj [("access_token", Json.str "T")])⟩
        ⟨200, "", some (Json.obj [("value", Json.arr [])])⟩).output
      ≠ ["✅ No unread emails"] := by decide

/-- Claim C4 as amended: when the listing endpoint returns zero messages,
the output is exactly the `📧 Checking …` header followed by the single
`✅ No unread emails` confirmation line — in particular no per-message list
— and the process exits with status 0. -/
theorem C4_zero_messages_confirmation
    (mailbox a b c ttxt ltxt : String) (tj tok : Json)
    (hm : mailbox ≠ "")
    (htok : pyIndex tj "access_token" = Except.ok tok) :
    (EmailCheck.main [mailbox] ⟨0, some (credsObj a b c)⟩ ⟨200, ttxt, some tj⟩
        ⟨200, ltxt, some (Json.obj [("value", Json.arr [])])⟩).output
      = ["📧 Checking " ++ mailbox ++ "...", "✅ No unread emails"]
    ∧ processExit (EmailCheck.main [mailbox] ⟨0, some (credsObj a b c)⟩
        ⟨200, ttxt, some tj⟩
        ⟨200, ltxt, some (Json.obj [("value", Json.arr [])])⟩).result = 0 := by
  have h1 : pyIndex (credsObj a b c) "tenant_id" = Except.ok (Json.str a) := rfl
  have h2 : pyIndex (credsObj a b c) "client_id" = Except.ok (Json.str b) := rfl
  have h3 : pyIndex (credsObj a b c) "client_secret" = Except.ok (Json.str c) := rfl
  constructor <;>
    simp [EmailCheck.main, get_credentials, get_token, check_emails,
          check_emails_params, Eff.bind_eq, Eff.bind, Eff.pure_eq, Eff.pure,
          Eff.liftExcept, Eff.recordLookup, Eff.recordRequest, Eff.pr,
          Eff.exitWith, Eff.raise, h1, h2, h3, htok, hm, Json.pyFalsy,
          pyGet, jsonLookup, processExit]

/-- Claim C4, witness: the concrete zero-message run. -/
theorem C4_zero_messages_confirmation_witness :
    (EmailCheck.main ["m@x.com"] ⟨0, some (credsObj "tid" "cid" "sec")⟩
        ⟨200, "", some (Json.obj [("access_token", Json.str "T")])⟩
        ⟨200, "", some (Json.obj [("value", Json.arr [])])⟩).output
      = ["📧 Checking m@x.com...", "✅ No unread emails"]
    ∧ processExit (EmailCheck.main ["m@x.com"] ⟨0, some (credsObj "tid" "cid" "sec")⟩
        ⟨200, "", some (Json.obj [("access_token", Json.str "T")])⟩
        ⟨200, "", some (Json.obj [("value", Json.arr [])])⟩).result = 0 :=
  C4_zero_messages_confirmation "m@x.com" "tid" "cid" "sec" "" ""
    (Json.obj [("access_token", Json.str "T")]) (Json.str "T")
    (by decide) rfl

/-- Claim C5, counterexample: a lookup that exits 0 with output that is not
valid JSON makes `get_credentials` die on an unhandled JSON decode error
having printed nothing — no distinct malformed-credential diagnostic is
surfaced. -/
theorem C5_no_malformed_diagnostic_counterexample :
    (get_credentials ⟨0, none⟩).output = []
    ∧ (get_credentials ⟨0, none⟩).result
        = Except.error (Halt.exc PyExc.jsonDecodeError) := ⟨rfl, rfl⟩

/-- Claim C5 as amended: the Credential Loader surfaces no distinct
malformed-credential error.  A zero-exit lookup whose output is not valid
JSON crashes with an unhandled JSON decode error and no diagnostic, and a
valid JSON payload missing the required fields is returned unvalidated, the
missing field first crashing `get_token` with an unhandled `KeyError`. -/
theorem C5_malformed_credentials_crash (resp : HttpResponse) :
    get_credentials ⟨0, none⟩
      = ⟨[], ["openclaw-microsoft365"], [],
         Except.error (Halt.exc PyExc.jsonDecodeError)⟩
    ∧ (get_credentials ⟨0, some (Json.obj [])⟩).result = Except.ok (Json.obj [])
    ∧ (get_token (Json.obj []) resp).result
        = Except.error (Halt.exc (PyExc.keyError "tenant_id")) := ⟨rfl, rfl, rfl⟩

/-- Claim C6: when the token endpoint answers with any non-200 status, the
run prints the header and `❌ Auth failed:` with the response body, makes
exactly the one POST (no retry) and no message-listing request, and
terminates with exit status 1. -/
theorem C6_auth_failure_terminates
    (mailbox a b c : String) (tokenResp listResp : HttpResponse)
    (hm : mailbox ≠ "") (hs : tokenResp.status_code ≠ 200) :
    EmailCheck.main [mailbox] ⟨0, some (credsObj a b c)⟩ tokenResp listResp
      = ⟨["📧 Checking " ++ mailbox ++ "...",
          "❌ Auth failed: " ++ tokenResp.text],
         ["openclaw-microsoft365"], [tokenRequest a b c],
         Except.error (Halt.exit 1)⟩
    ∧ processExit (EmailCheck.main [mailbox] ⟨0, some (credsObj a b c)⟩
        tokenResp listResp).result = 1 := by
  have h1 : pyIndex (credsObj a b c) "tenant_id" = Except.ok (Json.str a) := rfl
  have h2 : pyIndex (credsObj a b c) "client_id" = Except.ok (Json.str b) := rfl
  have h3 : pyIndex (credsObj a b c) "client_secret" = Except.ok (Json.str c) := rfl
  rcases tokenResp with ⟨s, txt, jb⟩
  simp only [HttpResponse.status_code] at hs
  have hmain : EmailCheck.main [mailbox] ⟨0, some (credsObj a b c)⟩ ⟨s, txt, jb⟩ listResp
      = ⟨["📧 Checking " ++ mailbox ++ "...", "❌ Auth failed: " ++ txt],
         ["openclaw-microsoft365"], [tokenRequest a b c],
         Except.error (Halt.exit 1)⟩ := by
    simp [EmailCheck.main, get_credentials, get_token, tokenRequest, Json.pyStr,
          Eff.bind_eq, Eff.bind, Eff.pure_eq, Eff.pure, Eff.liftExcept,
          Eff.recordLookup, Eff.recordRequest, Eff.pr, Eff.exitWith, Eff.raise,
          h1, h2, h3, hm, hs]
  exact ⟨hmain, by rw [hmain]; rfl⟩

/-- Claim C6, witness: the spec's mock 401 run. -/
theorem C6_auth_failure_terminates_witness :
    EmailCheck.main ["m@x.com"] ⟨0, some (credsObj "tid" "cid" "sec")⟩
        ⟨401, "denied", none⟩ ⟨200, "", none⟩
      = ⟨["📧 Checking m@x.com...", "❌ Auth failed: denied"],
         ["openclaw-microsoft365"], [tokenRequest "tid" "cid" "sec"],
         Except.error (Halt.exit 1)⟩
    ∧ processExit (EmailCheck.main ["m@x.com"] ⟨0, some (credsObj "tid" "cid" "sec")⟩
        ⟨401, "denied", none⟩ ⟨200, "", none⟩).result = 1 :=
  C6_auth_failure_terminates "m@x.com" "tid" "cid" "sec"
    ⟨401, "denied", none⟩ ⟨200, "", none⟩ (by decide) (by decide)

/-- Claim C7: on HTTP 200 `check_emails` returns the `value` array of the
JSON body, the empty array when the key is absent; on any non-200 it prints
`❌ Failed to get emails:` with the response body and exits with status 1. -/
theorem C7_check_emails_value_extraction
    (mailbox : String) (token : Json) (u : Bool) (limit : Nat)
    (resp : HttpResponse) (kvs : List (String × Json)) :
    (resp.status_code = 200 → resp.jsonBody = some (Json.obj kvs) →
      (check_emails mailbox token u limit resp).result
        = Except.ok (((Json.obj kvs).get "value").getD (Json.arr [])))
    ∧ (resp.status_code ≠ 200 →
      (check_emails mailbox token u limit resp).output
          = ["❌ Failed to get emails: " ++ resp.text]
        ∧ (check_emails mailbox token u limit resp).result
            = Except.error (Halt.exit 1)) := by
  rcases resp with ⟨s, txt, jb⟩
  constructor
  · intro hs hb
    simp only [HttpResponse.status_code] at hs
    simp only [HttpResponse.jsonBody] at hb
    subst hs; subst hb
    simp [check_emails, Eff.bind_eq, Eff.bind, Eff.recordRequest,
          Eff.liftExcept, Eff.pure, pyGet, Json.get]
  · intro hs
    simp only [HttpResponse.status_code] at hs
    constructor <;>
      simp [check_emails, Eff.bind_eq, Eff.bind, Eff.recordRequest,
            Eff.pr, Eff.exitWith, hs]

/-- Claim C7, witness: a 200 body with a `value` array, a 200 body without
one, and a 500 response. -/
theorem C7_check_emails_value_extraction_witness :
    (check_emails "m" (Json.str "T") true 10
        ⟨200, "", some (Json.obj [("value", Json.arr [Json.num 1])])⟩).result
      = Except.ok (Json.arr [Json.num 1])
    ∧ (check_emails "m" (Json.str "T") true 10
        ⟨200, "", some (Json.obj [("k", Json.num 2)])⟩).result
      = Except.ok (Json.arr [])
    ∧ (check_emails "m" (Json.str "T") true 10 ⟨500, "oops", none⟩).output
      = ["❌ Failed to get emails: oops"] := by
  refine ⟨?_, ?_, ?_⟩
  · exact (C7_check_emails_value_extraction "m" (Json.str "T") true 10
      ⟨200, "", some (Json.obj [("value", Json.arr [Json.num 1])])⟩
      [("value", Json.arr [Json.num 1])]).1 rfl rfl
  · exact (C7_check_emails_value_extraction "m" (Json.str "T") true 10
      ⟨200, "", some (Json.obj [("k", Json.num 2)])⟩
      [("k", Json.num 2)]).1 rfl rfl
  · exact ((C7_check_emails_value_extraction "m" (Json.str "T") true 10
      ⟨500, "oops", none⟩ []).2 (by decide)).1

/-- Claim C8: invoked with no mailbox argument, the program prints the two
usage lines and exits with status 1 after no keychain lookup and no HTTP
request at all. -/
theorem C8_no_argument_usage
    (secret : SecretResult) (tokenResp listResp : HttpResponse) :
    EmailCheck.main [] secret tokenResp listResp
      = ⟨["Usage: python3 email-check.py user@domain.com",
          "Set your mailbox as the first argument"],
         [], [], Except.error (Halt.exit 1)⟩
    ∧ processExit (EmailCheck.main [] secret tokenResp listResp).result = 1 :=
  ⟨rfl, rfl⟩

/-- Claim C9: a sender object lacking the `address` key crashes the
presentation step with `KeyError("address")` even when a display name is
present, because the fallback `sender.get("name", sender["address"])`
evaluates the address lookup eagerly; a message missing `from` or
`receivedDateTime` crashes with the corresponding `KeyError`, and such a
crash escapes `main` unhandled. -/
theorem C9_eager_address_lookup_keyerror (n sbj rdt prev : String) :
    format_email (Json.obj [("subject", Json.str sbj),
        ("from", Json.obj [("emailAddress", Json.obj [("name", Json.str n)])]),
        ("receivedDateTime", Json.str rdt), ("isRead", Json.bool false),
        ("bodyPreview", Json.str prev)])
      = Except.error (PyExc.keyError "address")
    ∧ format_email (Json.obj [("subject", Json.str sbj)])
      = Except.error (PyExc.keyError "from")
    ∧ format_email (Json.obj [("subject", Json.str sbj),
        ("from", Json.obj [("emailAddress",
          Json.obj [("name", Json.str n), ("address", Json.str "a@b.c")])]),
        ("isRead", Json.bool false), ("bodyPreview", Json.str prev)])
      = Except.error (PyExc.keyError "receivedDateTime")
    ∧ (EmailCheck.main ["m@x.com"] ⟨0, some (credsObj "tid" "cid" "sec")⟩
        ⟨200, "", some (Json.obj [("access_token", Json.str "T")])⟩
        ⟨200, "", some (Json.obj [("value", Json.arr
          [Json.obj [("subject", Json.str "Hi"),
            ("from", Json.obj [("emailAddress",
              Json.obj [("name", Json.str "Bob")])]),
            ("receivedDateTime", Json.str "2024-01-01T12:34:56Z"),
            ("isRead", Json.bool false),
            ("bodyPreview", Json.str "Hello")]])])⟩).result
      = Except.error (Halt.exc (PyExc.keyError "address")) :=
  ⟨rfl, rfl, rfl, rfl⟩

/-- Claim C10: an empty-string first argument behaves exactly as a missing
argument — the two usage lines, exit status 1, no keychain lookup and no
HTTP request. -/
theorem C10_empty_mailbox_argument
    (secret : SecretResult) (tokenResp listResp : HttpResponse) :
    EmailCheck.main [""] secret tokenResp listResp
      = EmailCheck.main [] secret tokenResp listResp
    ∧ EmailCheck.main [""] secret tokenResp listResp
      = ⟨["Usage: python3 email-check.py user@domain.com",
          "Set your mailbox as the first argument"],
         [], [], Except.error (Halt.exit 1)⟩ :=
  ⟨rfl, rfl⟩
